import Mathlib

/-!
Verification of the UNITVPROSIGNATURES payment and credential-inventory
engine.  The Python sources under src/ are shallowly embedded as pure Lean
functions over explicit state values: JSON stores become association lists,
wall-clock instants become natural-number timestamps (seconds), monetary
amounts become rationals, and external gateway calls become an explicit
effect list plus a response function passed as an argument.
-/

namespace UnitV

/-! ### Association lists with Python dict semantics

Python dicts preserve insertion order; assignment to an existing key keeps
its position, assignment to a fresh key appends. -/

def alookup {α : Type} : List (String × α) → String → Option α
  | [], _ => none
  | (k, v) :: rest, key => if k = key then some v else alookup rest key

def aset {α : Type} : List (String × α) → String → α → List (String × α)
  | [], key, v => [(key, v)]
  | (k, w) :: rest, key, v =>
      if k = key then (key, v) :: rest else (k, w) :: aset rest key v

theorem alookup_aset_self {α : Type} (l : List (String × α)) (k : String) (v : α) :
    alookup (aset l k v) k = some v := by
  induction l with
  | nil => simp [aset, alookup]
  | cons hd tl ih =>
      obtain ⟨k0, v0⟩ := hd
      by_cases h : k0 = k
      · simp [aset, alookup, h]
      · simp [aset, alookup, h, ih]

theorem alookup_aset_ne {α : Type} (l : List (String × α)) (k k' : String) (v : α)
    (h : k' ≠ k) : alookup (aset l k v) k' = alookup l k' := by
  induction l with
  | nil => simp [aset, alookup, Ne.symm h]
  | cons hd tl ih =>
      obtain ⟨k0, v0⟩ := hd
      by_cases h0 : k0 = k
      · subst h0
        simp [aset, alookup, Ne.symm h]
      · by_cases h1 : k0 = k'
        · subst h1
          simp [aset, alookup, h0]
        · simp [aset, alookup, h0, h1, ih]

theorem aset_fresh_append {α : Type} (l : List (String × α)) (k : String) (v : α)
    (h : alookup l k = none) : aset l k v = l ++ [(k, v)] := by
  induction l with
  | nil => simp [aset]
  | cons hd tl ih =>
      obtain ⟨k0, v0⟩ := hd
      by_cases h0 : k0 = k
      · simp [alookup, h0] at h
      · simp [alookup, h0] at h
        simp [aset, h0, ih h]

/-! ### JSON values and the persisted-store reader (src/db_utils.py) -/

inductive Json where
  | obj (fields : List (String × Json))
  | arr (items : List Json)
  | str (s : String)
  | num (n : Int)
  | boolean (b : Bool)
  | null

/-- State of one file on disk: absent, present but not parseable as JSON, or
present with a parsed JSON value. -/
inductive FileContent where
  | missing
  | malformed
  | valid (j : Json)

def emptyDict : Json := .obj []

/-- The default structure src/db_utils.py writes for a fresh logins.json. -/
def loginsDefault : Json :=
  .obj [("30_days", .arr []), ("6_months", .arr []), ("1_year", .arr [])]

/-- Shallow embedding of read_json_file in src/db_utils.py.  A missing file
is created with a default value (the per-tier structure for a path ending in
logins.json, an empty dict otherwise) and that default is returned; a file
that cannot be read or parsed makes the except branch return an empty dict,
leaving the file as it was; a valid file is returned as parsed.  The
function is total, mirroring the try/except wrapper that swallows every
exception. -/
def read_json_file (file_path : String) (fc : FileContent) : Json × FileContent :=
  match fc with
  | .missing =>
      if file_path.endsWith "logins.json" then (loginsDefault, .valid loginsDefault)
      else (emptyDict, .valid emptyDict)
  | .malformed => (emptyDict, .malformed)
  | .valid j => (j, .valid j)

/-! ### Plans (src/config.py) and credentials -/

structure Plan where
  name : String
  duration_days : Nat
  first_buy_price : ℚ
  regular_price : ℚ
  first_buy_discount : Bool
deriving DecidableEq, Repr

/-- The PLANS table of src/config.py. -/
def PLANS : List (String × Plan) :=
  [("30_days", ⟨"Plano 30 Dias", 30, 9, 20, true⟩),
   ("6_months", ⟨"Plano 6 Meses", 180, 40, 50, true⟩),
   ("1_year", ⟨"Plano 1 Ano", 365, 110, 110, false⟩)]

def plan_duration_days (plan_type : String) : Nat :=
  match alookup PLANS plan_type with
  | some plan => plan.duration_days
  | none => 0

/-- A pre-provisioned access credential, as stored in logins.json. -/
structure Login where
  username : String
  password : String
deriving DecidableEq, Repr

/-- The per-tier credential pools: plan type to list of logins. -/
abbrev Logins := List (String × List Login)

/-- Shallow embedding of get_available_login in src/login_service.py:
validate the plan type, then return the head of the pool without removing
it. -/
def get_available_login (plan_type : String) (logins : Logins) : Option Login :=
  if (alookup PLANS plan_type).isNone then none
  else
    match alookup logins plan_type with
    | some (l :: _) => some l
    | _ => none

/-- Remove the first element whose username equals the given one, as the
loop of remove_login in src/login_service.py does with list.pop. -/
def removeFirstByUsername (u : String) : List Login → Option (List Login)
  | [] => none
  | l :: ls =>
      if l.username = u then some ls
      else
        match removeFirstByUsername u ls with
        | some ls' => some (l :: ls')
        | none => none

/-- Shallow embedding of remove_login in src/login_service.py. -/
def remove_login (plan_type : String) (login_data : Login) (logins : Logins) :
    Bool × Logins :=
  if (alookup PLANS plan_type).isNone then (false, logins)
  else
    match alookup logins plan_type with
    | none => (false, logins)
    | some [] => (false, logins)
    | some ls =>
        match removeFirstByUsername login_data.username ls with
        | some ls' => (true, aset logins plan_type ls')
        | none => (false, logins)

/-- The credential dequeue as the fulfillment path performs it
(assign_login_to_user in src/payment_service.py): read the head with
get_available_login, then delete that entry with remove_login. -/
def try_dequeue (plan_type : String) (logins : Logins) : Option Login × Logins :=
  match get_available_login plan_type logins with
  | none => (none, logins)
  | some login_data => (some login_data, (remove_login plan_type login_data logins).2)

/-! ### The payment ledger (payments.json) -/

/-- One record of payments.json.  Fields are optional exactly where the
source leaves the key absent or null on some code path; fields the modelled
operations never read or branch on (pix_code, pix_image, related_messages,
timestamp, mp_payment_data) are omitted. -/
structure Payment where
  user_id : String
  plan_type : String
  amount : ℚ
  original_amount : Option ℚ
  coupon_code : Option String
  status : String
  created_at : Option Nat
  approved_at : Option Nat
  updated_at : Option Nat
  cancelled_at : Option Nat
  cancelled_reason : Option String
  payer_name : Option String
  payment_method : Option String
  mp_payment_id : Option String
  login_delivered : Bool
  login_data : Option Login
  expiration_notified : Bool
deriving DecidableEq, Repr

abbrev Payments := List (String × Payment)

/-- Python truthiness of the value of dict.get for a string field: absent
keys and empty strings are falsy. -/
def truthyStr : Option String → Bool
  | none => false
  | some s => !s.isEmpty

/-- Observable calls to the external gateway.  A gatewayCancel records that
the auxiliary cancel helper was invoked for that Mercado Pago id (the
helper itself only talks to the remote API and logs). -/
inductive Effect where
  | gatewayCancel (mp_payment_id : String)
deriving DecidableEq, Repr

def mpCancelEffects (p : Payment) : List Effect :=
  match p.mp_payment_id with
  | some mp => if mp.isEmpty then [] else [Effect.gatewayCancel mp]
  | none => []

/-- Shallow embedding of update_payment in src/utils.py: merge the given
field changes into the record if the id exists, without stamping any
timestamp. -/
def utils_update_payment (payments : Payments) (payment_id : String)
    (data : Payment → Payment) : Bool × Payments :=
  match alookup payments payment_id with
  | some p => (true, aset payments payment_id (data p))
  | none => (false, payments)

/-- Shallow embedding of update_payment in src/payment_service.py: like the
utils version but the merged data always carries a fresh updated_at stamp. -/
def ps_update_payment (payments : Payments) (payment_id : String)
    (data : Payment → Payment) (now : Nat) : Bool × Payments :=
  match alookup payments payment_id with
  | some p => (true, aset payments payment_id { data p with updated_at := some now })
  | none => (false, payments)

/-- Shallow embedding of cancel_payment in src/utils.py: if the id exists,
attempt the gateway cancel whenever an mp_payment_id is attached, then set
the status to cancelled unconditionally; no terminal-state guard exists in
this version. -/
def utils_cancel_payment (payment_id : String) (payments : Payments) :
    (Bool × Option Payment) × Payments × List Effect :=
  match alookup payments payment_id with
  | some payment =>
      let payment' := { payment with status := "cancelled" }
      ((true, some payment'), aset payments payment_id payment', mpCancelEffects payment)
  | none => ((false, none), payments, [])

/-- Shallow embedding of cancel_payment in src/payment_service.py: refuse
when the payment is already completed, cancelled or rejected; otherwise
attempt the gateway cancel for a Mercado Pago payment and mark the record
cancelled. -/
def ps_cancel_payment (payment_id : String) (now : Nat) (payments : Payments) :
    Bool × Payments × List Effect :=
  match alookup payments payment_id with
  | none => (false, payments, [])
  | some payment =>
      if payment.status = "completed" ∨ payment.status = "cancelled" ∨
          payment.status = "rejected" then
        (false, payments, [])
      else
        let fx :=
          if payment.payment_method = some "pix_mercado_pago" ∧
              truthyStr payment.mp_payment_id then
            mpCancelEffects payment
          else []
        let payments' := (ps_update_payment payments payment_id
          (fun p => { p with status := "cancelled", cancelled_at := some now }) now).2
        (true, payments', fx)

/-- The in-place mutation create_payment in src/utils.py applies to a
superseded pending payment. -/
def cancelledStamp (p : Payment) (now : Nat) : Payment :=
  { p with
    status := "cancelled"
    cancelled_at := some now
    cancelled_reason := some "Substituido por novo pagamento" }

/-- The loop at the top of create_payment in src/utils.py: every existing
payment of the user whose status is pending is marked cancelled (with the
gateway cancel attempted when it has an mp_payment_id); the emitted gateway
effects are collected in ledger order. -/
def cancelPendingOf (user_id : String) (now : Nat) :
    Payments → Payments × List Effect
  | [] => ([], [])
  | (pid, p) :: rest =>
      let r := cancelPendingOf user_id now rest
      if p.user_id = user_id ∧ p.status = "pending" then
        ((pid, cancelledStamp p now) :: r.1, mpCancelEffects p ++ r.2)
      else ((pid, p) :: r.1, r.2)

/-- The payment_data record create_payment in src/utils.py builds for the
new purchase intent. -/
def newPaymentData (user_id plan_type : String) (amount : ℚ)
    (coupon_code : Option String) (now : Nat) : Payment :=
  { user_id := user_id, plan_type := plan_type, amount := amount,
    original_amount := some amount, coupon_code := coupon_code,
    status := "pending", created_at := some now, approved_at := none,
    updated_at := none, cancelled_at := none, cancelled_reason := none,
    payer_name := some "", payment_method := none, mp_payment_id := none,
    login_delivered := false, login_data := none,
    expiration_notified := false }

/-- Shallow embedding of create_payment in src/utils.py.  The fresh uuid is
passed in as payment_id.  Existing pending payments of the user are
cancelled first, then the new record is stored with status pending. -/
def utils_create_payment (user_id plan_type : String) (amount : ℚ)
    (coupon_code : Option String) (payment_id : String) (now : Nat)
    (payments : Payments) : String × Payments × List Effect :=
  let r := cancelPendingOf user_id now payments
  (payment_id,
   aset r.1 payment_id (newPaymentData user_id plan_type amount coupon_code now),
   r.2)

/-- Shallow embedding of get_user_pending_payment in src/utils.py.  The
ledger is scanned in order; the first payment of the user with status
pending decides the outcome: when its created_at lies more than 600 seconds
in the past it is marked expired in place (attempting the gateway cancel if
an mp_payment_id is attached) and none is returned, otherwise the payment
itself is returned with the ledger untouched.  Entries after the decisive
one are never examined. -/
def utils_get_user_pending_payment (user_id : String) (now : Nat) :
    Payments → Option Payment × Payments × List Effect
  | [] => (none, [], [])
  | (pid, p) :: rest =>
      if p.user_id = user_id ∧ p.status = "pending" then
        match p.created_at with
        | some c =>
            if now > c + 600 then
              (none, (pid, { p with status := "expired" }) :: rest, mpCancelEffects p)
            else (some p, (pid, p) :: rest, [])
        | none => (some p, (pid, p) :: rest, [])
      else
        let r := utils_get_user_pending_payment user_id now rest
        (r.1, (pid, p) :: r.2.1, r.2.2)

/-- First payment of the user with status pending, in ledger order. -/
def firstPending (user_id : String) : Payments → Option (String × Payment)
  | [] => none
  | (pid, p) :: rest =>
      if p.user_id = user_id ∧ p.status = "pending" then some (pid, p)
      else firstPending user_id rest

/-! ### Customers (users.json) and referrals -/

/-- One record of users.json, restricted to the fields the modelled
operations read or write. -/
structure User where
  has_active_plan : Bool
  plan_type : Option String
  plan_expiration : Option Nat
  login_info : Option Login
  is_first_buy : Bool
  referred_by : Option String
  successful_referrals : Nat
deriving DecidableEq, Repr

abbrev Users := List (String × User)

/-- Shallow embedding of process_successful_referral in
src/user_service.py: increment the referrer counter and save; the returned
flag says whether the new count is a multiple of the configured
free_month_after_referrals threshold. -/
def process_successful_referral (referrer_id : String)
    (free_month_after_referrals : Nat) (users : Users) : Bool × Users :=
  match alookup users referrer_id with
  | some referrer =>
      let referrer' :=
        { referrer with successful_referrals := referrer.successful_referrals + 1 }
      let users' := aset users referrer_id referrer'
      (referrer'.successful_referrals % free_month_after_referrals = 0, users')
  | none => (false, users)

/-- The three mutable stores touched by fulfillment. -/
structure SysState where
  payments : Payments
  logins : Logins
  users : Users
deriving Repr

/-- Shallow embedding of assign_login_to_user in src/payment_service.py:
take the head credential of the pool (failing with a message when the pool
is empty or the user is unknown), write plan and login onto the user and
clear the first-buy flag, record login_delivered and the credential on the
payment, remove the credential from the pool, and finally bump the referrer
counter whenever the user carries a referred_by value.  This version never
touches the payment status field. -/
def ps_assign_login_to_user (user_id plan_type payment_id : String) (now : Nat)
    (free_month_after_referrals : Nat) (st : SysState) :
    (Bool × String) × SysState :=
  match get_available_login plan_type st.logins with
  | none =>
      ((false, "Nenhum login disponivel para este plano."), st)
  | some login_data =>
      match alookup st.users user_id with
      | none => ((false, "Erro ao encontrar usuario."), st)
      | some user =>
          let duration_days := plan_duration_days plan_type
          let user' : User :=
            { user with
              has_active_plan := true
              plan_type := some plan_type
              plan_expiration := some (now + duration_days * 86400)
              login_info := some login_data
              is_first_buy := false }
          let users1 := aset st.users user_id user'
          let payments1 := (ps_update_payment st.payments payment_id
            (fun p => { p with login_delivered := true, login_data := some login_data })
            now).2
          let logins1 := (remove_login plan_type login_data st.logins).2
          let users2 :=
            match user.referred_by with
            | some r =>
                if r.isEmpty then users1
                else (process_successful_referral r free_month_after_referrals users1).2
            | none => users1
          ((true, "Dados de acesso"),
           { payments := payments1, logins := logins1, users := users2 })

/-! ### Gateway reconciliation (src/mercado_pago_service.py) -/

/-- The fields of a Mercado Pago webhook POST body that matter for the
handler, together with payload fields the handler never reads (an embedded
status and the action), kept in the model so that independence from them is
expressible. -/
structure WebhookEvent where
  wtype : Option String
  data_id : Option String
  embedded_status : Option String
  action : Option String
deriving DecidableEq, Repr

/-- Shallow embedding of check_payment_status in
src/mercado_pago_service.py: a fresh authoritative GET on the gateway,
modelled by the response function gw (none stands for a non-200 response),
followed by the mapping of remote statuses onto internal ones. -/
def check_payment_status (gw : String → Option String) (token_ok : Bool)
    (mp_payment_id : String) : Bool × String :=
  if !token_ok then (false, "not_configured")
  else
    match gw mp_payment_id with
    | none => (false, "error")
    | some s =>
        if s = "approved" then (true, "completed")
        else if s = "pending" then (true, "pending")
        else if s = "rejected" ∨ s = "cancelled" ∨ s = "refunded" ∨
            s = "charged_back" then (true, "rejected")
        else (true, "pending")

/-- The scan of payments.json for the record carrying the given Mercado
Pago id, in ledger order. -/
def findByMp : Payments → String → Option String
  | [], _ => none
  | (pid, p) :: rest, mp =>
      if p.mp_payment_id = some mp then some pid else findByMp rest mp

/-- Python truthiness of the pair returned by assign_login_to_user in
src/payment_service.py: the webhook handler tests the returned value with
a bare if, and a two-element tuple is always truthy, whatever its first
component says. -/
def pyTupleTruthy : Bool × String → Bool := fun _ => true

/-- Shallow embedding of process_mercado_pago_webhook in
src/mercado_pago_service.py.  Only the type and data.id fields of the
payload are consulted; the status applied to the ledger comes from
check_payment_status, a fresh GET on the gateway. -/
def process_mercado_pago_webhook (ev : WebhookEvent)
    (gw : String → Option String) (token_ok : Bool) (now : Nat)
    (free_month_after_referrals : Nat) (st : SysState) :
    (Bool × String) × SysState :=
  if ev.wtype ≠ some "payment" then
    ((false, "Tipo de notificacao nao suportado"), st)
  else
    match ev.data_id with
    | none => ((false, "ID do pagamento nao encontrado"), st)
    | some mp_payment_id =>
        if mp_payment_id.isEmpty then
          ((false, "ID do pagamento nao encontrado"), st)
        else
          let r := check_payment_status gw token_ok mp_payment_id
          if !r.1 then ((false, "Erro ao verificar status do pagamento"), st)
          else
            match findByMp st.payments mp_payment_id with
            | none => ((false, "Pagamento interno nao encontrado"), st)
            | some internal_payment_id =>
                match alookup st.payments internal_payment_id with
                | none => ((false, "Erro ao obter dados do pagamento"), st)
                | some payment =>
                    if r.2 = "completed" ∧ payment.status ≠ "completed" then
                      let ar := ps_assign_login_to_user payment.user_id
                        payment.plan_type internal_payment_id now
                        free_month_after_referrals st
                      if pyTupleTruthy ar.1 then
                        let payments2 := (ps_update_payment ar.2.payments
                          internal_payment_id
                          (fun p => { p with status := "completed" }) now).2
                        ((true, "Pagamento aprovado e login atribuido"),
                         { ar.2 with payments := payments2 })
                      else
                        let payments2 := (ps_update_payment ar.2.payments
                          internal_payment_id
                          (fun p => { p with status := "waiting_login" }) now).2
                        ((true, "Pagamento aprovado, aguardando login"),
                         { ar.2 with payments := payments2 })
                    else if r.2 = "rejected" ∧ payment.status ≠ "rejected" then
                      let payments2 := (ps_update_payment st.payments
                        internal_payment_id
                        (fun p => { p with status := "rejected" }) now).2
                      ((true, "Pagamento rejeitado"),
                       { st with payments := payments2 })
                    else ((true, "Status atualizado"), st)

/-! ### Pricing (src/utils.py): seasonal discounts and plan prices -/

/-- One entry of the seasonal_discounts section of bot_config.json.  An
empty applicable_plans list is falsy in Python and therefore means every
plan. -/
structure SeasonalDiscount where
  discount_percent : ℚ
  expiration_date : Nat
  applicable_plans : List String
deriving DecidableEq, Repr

abbrev Discounts := List (String × SeasonalDiscount)

/-- Shallow embedding of get_active_seasonal_discounts in src/utils.py:
keep, in store order, the discounts whose expiration lies strictly in the
future. -/
def get_active_seasonal_discounts (now : Nat) (ds : Discounts) : Discounts :=
  ds.filter (fun e => decide (now < e.2.expiration_date))

/-- Whether a discount applies to the plan: empty applicable_plans (falsy)
or membership. -/
def discountApplies (plan_type : String) (d : SeasonalDiscount) : Bool :=
  d.applicable_plans.isEmpty || decide (plan_type ∈ d.applicable_plans)

/-- The loop of get_seasonal_discount_info in src/utils.py: return the
first active discount applicable to the plan, in store order. -/
def findApplicable (plan_type : String) : Discounts → Option (String × SeasonalDiscount)
  | [] => none
  | (did, d) :: rest =>
      if discountApplies plan_type d then some (did, d)
      else findApplicable plan_type rest

/-- Shallow embedding of get_seasonal_discount_info in src/utils.py. -/
def get_seasonal_discount_info (plan_type : String) (now : Nat) (ds : Discounts) :
    Option (ℚ × Nat × String) :=
  match findApplicable plan_type (get_active_seasonal_discounts now ds) with
  | some (did, d) => some (d.discount_percent, d.expiration_date, did)
  | none => none

/-- Shallow embedding of calculate_plan_price in src/utils.py: base price is
the first-buy price when the user exists, still has the first-buy flag and
the plan allows the first-buy discount, else the regular price; when
get_seasonal_discount_info reports a discount the base is scaled by it.
An unknown plan type raises a KeyError in the source and is modelled as
none. -/
def utils_calculate_plan_price (user_id plan_type : String) (now : Nat)
    (users : Users) (ds : Discounts) : Option ℚ :=
  match alookup PLANS plan_type with
  | none => none
  | some plan =>
      let base :=
        match alookup users user_id with
        | some u =>
            if u.is_first_buy ∧ plan.first_buy_discount then plan.first_buy_price
            else plan.regular_price
        | none => plan.regular_price
      match get_seasonal_discount_info plan_type now ds with
      | some info => some (base * (1 - info.1 / 100))
      | none => some base

/-- The base price exactly as the claim words it: firstBuyPrice when the
first-purchase flag is set and the tier allows a first-buy discount, else
regularPrice. -/
def claim_base_price (user_id : String) (plan : Plan) (users : Users) : ℚ :=
  match alookup users user_id with
  | some u =>
      if u.is_first_buy ∧ plan.first_buy_discount then plan.first_buy_price
      else plan.regular_price
  | none => plan.regular_price

/-- The largest discount percentage among the active discounts applicable
to the plan, zero when none is active: the multiplier the claim asks for. -/
def largestApplicablePercent (plan_type : String) (now : Nat) (ds : Discounts) : ℚ :=
  ((get_active_seasonal_discounts now ds).filter
    (fun e => discountApplies plan_type e.2)).foldr
    (fun e m => max e.2.discount_percent m) 0

/-- The price as the claim states it: base times one minus the largest
active applicable discount percentage over one hundred. -/
def claim_calculate_plan_price (user_id plan_type : String) (now : Nat)
    (users : Users) (ds : Discounts) : Option ℚ :=
  match alookup PLANS plan_type with
  | none => none
  | some plan =>
      some (claim_base_price user_id plan users *
        (1 - largestApplicablePercent plan_type now ds / 100))

/-- The discount percentage the source actually applies: that of the first
active applicable discount in store order, zero when none is active. -/
def firstApplicablePercent (plan_type : String) (now : Nat) (ds : Discounts) : ℚ :=
  match findApplicable plan_type (get_active_seasonal_discounts now ds) with
  | some x => x.2.discount_percent
  | none => 0

/-! ### Coupons -/

/-- One entry of the coupons section of bot_config.json as created and read
by src/utils.py.  A max_uses or max_uses_per_user of minus one means
unlimited; min_purchase of zero is falsy and disables the check; a missing
usage_history falls back to the legacy users list. -/
structure Coupon where
  discount_type : String
  discount_value : ℚ
  expiration_date : Option Nat
  max_uses : Int
  uses : Int
  max_uses_per_user : Int
  min_purchase : Option ℚ
  applicable_plans : List String
  usage_history : Option (List (String × Nat))
  users : List String
deriving DecidableEq, Repr

abbrev Coupons := List (String × Coupon)

/-- Kernel-computable rendering of the Python str.upper call, mapping the
uppercase conversion over the character list. -/
def upperString (s : String) : String := ⟨s.data.map Char.toUpper⟩

/-- The expiration check of validate_coupon in src/utils.py: a stored
expiration date strictly in the past.  A null date is falsy and disables
the check. -/
def coupon_expired (coupon : Coupon) (now : Nat) : Bool :=
  match coupon.expiration_date with
  | some e => decide (now > e)
  | none => false

/-- The global-use check: max_uses of minus one means unlimited. -/
def coupon_uses_exhausted (coupon : Coupon) : Bool :=
  decide (coupon.max_uses ≠ -1 ∧ coupon.uses ≥ coupon.max_uses)

/-- The per-user check: the usage_history counter when present (minus one
meaning unlimited), the legacy users membership list otherwise. -/
def coupon_user_blocked (coupon : Coupon) (user_id : String) : Bool :=
  match coupon.usage_history with
  | some h =>
      decide (coupon.max_uses_per_user ≠ -1 ∧
        ((match alookup h user_id with
          | some n => (n : Int)
          | none => 0) ≥ coupon.max_uses_per_user))
  | none => decide (user_id ∈ coupon.users)

/-- The minimum-purchase check: a zero or null minimum is falsy. -/
def coupon_below_min (coupon : Coupon) (amount : ℚ) : Bool :=
  match coupon.min_purchase with
  | some m => decide (m ≠ 0 ∧ amount < m)
  | none => false

/-- The plan-applicability check of the utils validator. -/
def coupon_plan_blocked (coupon : Coupon) (plan_type : String) : Bool :=
  decide ("all" ∉ coupon.applicable_plans ∧
    plan_type ∉ coupon.applicable_plans)

/-- The first-purchase check: coupons are refused while is_first_buy is
set; an unknown user is not blocked. -/
def first_buy_blocked (users : Users) (user_id : String) : Bool :=
  match alookup users user_id with
  | some u => u.is_first_buy
  | none => false

/-- The raw discount of validate_coupon in src/utils.py: percentage of the
amount or the fixed value. -/
def coupon_discount0 (coupon : Coupon) (amount : ℚ) : ℚ :=
  if coupon.discount_type = "percentage" then
    amount * (coupon.discount_value / 100)
  else coupon.discount_value

/-- The capped discount: a discount that would drive the price to zero or
below is replaced by amount minus one cent. -/
def coupon_discount (coupon : Coupon) (amount : ℚ) : ℚ :=
  if amount - coupon_discount0 coupon amount ≤ 0 then amount - 1 / 100
  else coupon_discount0 coupon amount

/-- The success payload of the utils validator: the discount and the final
amount. -/
def coupon_discount_amount (coupon : Coupon) (amount : ℚ) : ℚ × ℚ :=
  (coupon_discount coupon amount, amount - coupon_discount coupon amount)

/-- Shallow embedding of validate_coupon in src/utils.py.  The rejection
messages are collapsed to none; a success returns the discount and the
final amount.  The checks run in source order. -/
def utils_validate_coupon (code : String) (user_id plan_type : String)
    (amount : ℚ) (now : Nat) (coupons : Coupons) (users : Users) :
    Option (ℚ × ℚ) :=
  if code.isEmpty then none
  else
    match alookup coupons (upperString code) with
    | none => none
    | some coupon =>
        if coupon_expired coupon now then none
        else if coupon_uses_exhausted coupon then none
        else if coupon_user_blocked coupon user_id then none
        else if coupon_below_min coupon amount then none
        else if coupon_plan_blocked coupon plan_type then none
        else if first_buy_blocked users user_id then none
        else some (coupon_discount_amount coupon amount)

/-- One entry of the coupons section as created and read by
src/coupon_service.py, whose field shapes differ from the utils version. -/
structure CSCoupon where
  discount_type : String
  discount_value : ℚ
  expires_at : Option Nat
  max_uses : Int
  uses : Int
  min_purchase : ℚ
  applicable_plans : List String
deriving DecidableEq, Repr

/-- The expiration check of validate_coupon in src/coupon_service.py: the
expires_at key may be absent. -/
def cs_coupon_expired (coupon : CSCoupon) (now : Nat) : Bool :=
  match coupon.expires_at with
  | some e => decide (now > e)
  | none => false

/-- The plan-applicability check of the service validator: an empty list
is falsy and admits every plan. -/
def cs_plan_blocked (coupon : CSCoupon) (plan_type : String) : Bool :=
  !coupon.applicable_plans.isEmpty &&
    decide (plan_type ∉ coupon.applicable_plans)

/-- The discount of validate_coupon in src/coupon_service.py: the percent
branch is uncapped, a fixed discount is capped at the full amount by min. -/
def cs_discount (coupon : CSCoupon) (amount : ℚ) : ℚ :=
  if coupon.discount_type = "percent" then
    amount * (coupon.discount_value / 100)
  else min coupon.discount_value amount

/-- The success payload of the service validator. -/
def cs_discount_amount (coupon : CSCoupon) (amount : ℚ) : ℚ × ℚ :=
  (cs_discount coupon amount, amount - cs_discount coupon amount)

/-- Shallow embedding of validate_coupon in src/coupon_service.py: no
per-user and no first-purchase check, no unlimited-uses exemption, and the
min_purchase comparison always runs. -/
def cs_validate_coupon (code : String) (plan_type : String) (amount : ℚ)
    (now : Nat) (coupons : List (String × CSCoupon)) : Option (ℚ × ℚ) :=
  match alookup coupons code with
  | none => none
  | some coupon =>
      if cs_coupon_expired coupon now then none
      else if coupon.uses ≥ coupon.max_uses then none
      else if amount < coupon.min_purchase then none
      else if cs_plan_blocked coupon plan_type then none
      else some (cs_discount_amount coupon amount)

/-! ### Helper lemmas about the stores -/

theorem alookup_append_some {α : Type} (l l' : List (String × α)) (k : String)
    (v : α) (h : alookup l k = some v) : alookup (l ++ l') k = some v := by
  induction l with
  | nil => simp [alookup] at h
  | cons hd tl ih =>
      obtain ⟨k0, v0⟩ := hd
      by_cases hk : k0 = k
      · simp [alookup, hk] at h ⊢
        exact h
      · simp [alookup, hk] at h ⊢
        exact ih h

theorem alookup_append_none {α : Type} (l l' : List (String × α)) (k : String)
    (h : alookup l k = none) : alookup (l ++ l') k = alookup l' k := by
  induction l with
  | nil => simp
  | cons hd tl ih =>
      obtain ⟨k0, v0⟩ := hd
      by_cases hk : k0 = k
      · simp [alookup, hk] at h
      · simp [alookup, hk] at h ⊢
        exact ih h

/-- How many payments of the user are pending. -/
def pendingCount (user_id : String) (ps : Payments) : Nat :=
  ps.countP (fun e => decide (e.2.user_id = user_id ∧ e.2.status = "pending"))

theorem alookup_cancelPendingOf (uid : String) (now : Nat) (ps : Payments)
    (k : String) :
    alookup (cancelPendingOf uid now ps).1 k =
      (alookup ps k).map (fun p =>
        if p.user_id = uid ∧ p.status = "pending" then cancelledStamp p now
        else p) := by
  induction ps with
  | nil => rfl
  | cons hd tl ih =>
      obtain ⟨k0, p0⟩ := hd
      by_cases hp : p0.user_id = uid ∧ p0.status = "pending" <;>
        by_cases hk : k0 = k <;>
        simp [cancelPendingOf, alookup, hp, hk, ih]

theorem pendingCount_cancelPendingOf (uid : String) (now : Nat) (ps : Payments) :
    pendingCount uid (cancelPendingOf uid now ps).1 = 0 := by
  have hcp : ("cancelled" : String) ≠ "pending" := by decide
  induction ps with
  | nil => rfl
  | cons hd tl ih =>
      obtain ⟨k0, p0⟩ := hd
      by_cases hp : p0.user_id = uid ∧ p0.status = "pending" <;>
        simp [cancelPendingOf, pendingCount, List.countP_cons, hp, hcp,
          cancelledStamp] <;>
        simpa [pendingCount] using ih

theorem effect_mem_cancelPendingOf (uid : String) (now : Nat) (ps : Payments)
    (pid : String) (p : Payment) (mp : String)
    (hl : alookup ps pid = some p) (hu : p.user_id = uid)
    (hs : p.status = "pending") (hmp : p.mp_payment_id = some mp)
    (hne : mp.isEmpty = false) :
    Effect.gatewayCancel mp ∈ (cancelPendingOf uid now ps).2 := by
  induction ps with
  | nil => simp [alookup] at hl
  | cons hd tl ih =>
      obtain ⟨k0, p0⟩ := hd
      by_cases hk : k0 = pid
      · simp [alookup, hk] at hl
        subst hl
        have hp : p0.user_id = uid ∧ p0.status = "pending" := ⟨hu, hs⟩
        simp [cancelPendingOf, hp, mpCancelEffects, hmp, hne]
      · simp [alookup, hk] at hl
        by_cases hp : p0.user_id = uid ∧ p0.status = "pending"
        · simp [cancelPendingOf, hp]
          exact Or.inr (ih hl)
        · simp [cancelPendingOf, hp]
          exact ih hl

/-! ### Concrete fixtures used by counterexamples and witnesses -/

/-- A plain pending payment of user 7 for the 30-day plan, as created by
create_payment with the optional fields left empty. -/
def basePayment : Payment :=
  { user_id := "7", plan_type := "30_days", amount := 20,
    original_amount := none, coupon_code := none, status := "pending",
    created_at := none, approved_at := none, updated_at := none,
    cancelled_at := none, cancelled_reason := none, payer_name := none,
    payment_method := none, mp_payment_id := none, login_delivered := false,
    login_data := none, expiration_notified := false }

/-- A fresh customer record as created by create_user. -/
def baseUser : User :=
  { has_active_plan := false, plan_type := none, plan_expiration := none,
    login_info := none, is_first_buy := true, referred_by := none,
    successful_referrals := 0 }

/-! ### Claim theorems -/

/-- C10: reading a persisted JSON store never raises (the embedded reader
is total): a missing file is created holding exactly the returned default,
which is the per-tier empty-list structure for a logins.json path and the
empty dict otherwise; an unreadable or malformed file yields the empty
dict with the file left as it was; a readable file yields its parsed
content. -/
theorem c10_read_json_file_spec (file_path : String) :
    ((read_json_file file_path .missing).1 =
        (if file_path.endsWith "logins.json" then loginsDefault else emptyDict)) ∧
    ((read_json_file file_path .missing).2 =
        .valid (read_json_file file_path .missing).1) ∧
    (read_json_file file_path .malformed = (emptyDict, .malformed)) ∧
    (∀ j, read_json_file file_path (.valid j) = (j, .valid j)) := by
  refine ⟨?_, ?_, rfl, fun j => rfl⟩ <;>
    by_cases h : file_path.endsWith "logins.json" <;>
    simp [read_json_file, h]

/-- C4: on a tier known to PLANS whose pool holds head h and tail t, the
dequeue performed by the fulfillment path returns h and rewrites the pool
for that tier to t; on an empty or absent pool it returns none and leaves
the inventory untouched. -/
theorem c4_try_dequeue_spec (plan_type : String) (logins : Logins) :
    (∀ plan h t, alookup PLANS plan_type = some plan →
      alookup logins plan_type = some (h :: t) →
      try_dequeue plan_type logins = (some h, aset logins plan_type t)) ∧
    ((alookup logins plan_type = some [] ∨ alookup logins plan_type = none) →
      try_dequeue plan_type logins = (none, logins)) := by
  constructor
  · intro plan h t hp hl
    simp [try_dequeue, get_available_login, remove_login, hp, hl,
      removeFirstByUsername]
  · rintro (hl | hl) <;> simp [try_dequeue, get_available_login, hl]

theorem c4_try_dequeue_witness :
    try_dequeue "30_days"
        [("30_days", [⟨"u1", "s1"⟩, ⟨"u2", "s2"⟩])] =
      (some ⟨"u1", "s1"⟩, [("30_days", [⟨"u2", "s2"⟩])]) ∧
    try_dequeue "30_days" [("30_days", [])] = (none, [("30_days", [])]) :=
  ⟨(c4_try_dequeue_spec "30_days" _).1 ⟨"Plano 30 Dias", 30, 9, 20, true⟩
      ⟨"u1", "s1"⟩ [⟨"u2", "s2"⟩] (by decide) (by decide),
   (c4_try_dequeue_spec "30_days" _).2 (Or.inl (by decide))⟩

/-- C1 counterexample: the utils cancel operation flips even a completed
payment (a terminal state) back to cancelled, so terminal statuses are not
invariant under every operation. -/
theorem c1_cancel_counterexample :
    utils_cancel_payment "p1" [("p1", { basePayment with status := "completed" })] =
      ((true, some { basePayment with status := "cancelled" }),
       [("p1", { basePayment with status := "cancelled" })], []) := by
  decide

/-- C1 amended: only the service-layer cancel operation protects terminal
statuses, and only three of them: when the payment status is completed,
cancelled or rejected, cancel_payment of src/payment_service.py returns
false, leaves the ledger unchanged and attempts no gateway call.  The
utils-layer cancel, the expired status, and the webhook paths carry no such
protection. -/
theorem c1_terminal_guard_amended (payments : Payments) (payment_id : String)
    (p : Payment) (now : Nat) (h : alookup payments payment_id = some p)
    (hs : p.status = "completed" ∨ p.status = "cancelled" ∨ p.status = "rejected") :
    ps_cancel_payment payment_id now payments = (false, payments, []) := by
  simp [ps_cancel_payment, h, hs]

theorem c1_terminal_guard_witness :
    ps_cancel_payment "p1" 5 [("p1", { basePayment with status := "completed" })] =
      (false, [("p1", { basePayment with status := "completed" })], []) :=
  c1_terminal_guard_amended _ "p1" { basePayment with status := "completed" } 5
    (by decide) (Or.inl (by decide))

/-- C9: the webhook handler reads nothing from a payment event beyond its
type and data.id; two payment events with equal data.id but arbitrarily
different embedded status or action fields produce identical results and
identical ledger updates, the applied status coming from the gateway GET
alone. -/
theorem c9_webhook_payload_independence (e1 e2 : WebhookEvent)
    (gw : String → Option String) (token_ok : Bool) (now n : Nat)
    (st : SysState) (h1 : e1.wtype = some "payment")
    (h2 : e2.wtype = some "payment") (h3 : e1.data_id = e2.data_id) :
    process_mercado_pago_webhook e1 gw token_ok now n st =
      process_mercado_pago_webhook e2 gw token_ok now n st := by
  unfold process_mercado_pago_webhook
  rw [h1, h2, h3]

theorem c9_webhook_payload_independence_witness :
    process_mercado_pago_webhook
        ⟨some "payment", some "mp1", some "approved", some "payment.updated"⟩
        (fun _ => some "rejected") true 50 3
        ⟨[("p1", { basePayment with mp_payment_id := some "mp1" })],
         [("30_days", [])], [("7", baseUser)]⟩ =
      process_mercado_pago_webhook
        ⟨some "payment", some "mp1", some "cancelled", none⟩
        (fun _ => some "rejected") true 50 3
        ⟨[("p1", { basePayment with mp_payment_id := some "mp1" })],
         [("30_days", [])], [("7", baseUser)]⟩ :=
  c9_webhook_payload_independence _ _ _ _ _ _ _ rfl rfl rfl

/-- A pending payment of user 7 carrying a Mercado Pago charge. -/
def c2Payment : Payment :=
  { basePayment with
    mp_payment_id := some "mp1"
    payment_method := some "pix_mercado_pago" }

/-- State with one pending Mercado Pago payment of user 7 whose tier pool
is empty. -/
def c2State : SysState :=
  ⟨[("p1", c2Payment)], [("30_days", [])], [("7", baseUser)]⟩

/-- Gateway answering approved for the charge of that payment. -/
def c2Gw : String → Option String :=
  fun s => if s = "mp1" then some "approved" else none

/-- The webhook outcome on c2State for the approved charge. -/
def c2Result : (Bool × String) × SysState :=
  process_mercado_pago_webhook ⟨some "payment", some "mp1", none, none⟩
    c2Gw true 1000 3 c2State

/-- C2 evaluated at the failing input: with an empty credential pool the
assignment helper fails and changes neither the customer nor the pool, yet
the webhook handler still reports the success message and stamps the
payment completed with login_delivered false, because it tests the
truthiness of the returned pair, which is always true; the waiting_login
branch meant for this failure is unreachable. -/
theorem c2_webhook_out_of_stock_bug :
    c2Result.1 = (true, "Pagamento aprovado e login atribuido") ∧
    (alookup c2Result.2.payments "p1").map Payment.status = some "completed" ∧
    (alookup c2Result.2.payments "p1").map Payment.login_delivered = some false ∧
    c2Result.2.users = c2State.users ∧
    c2Result.2.logins = c2State.logins :=
  ⟨rfl, rfl, rfl, rfl, rfl⟩

/-- Customer 7 referred by customer 9. -/
def c6User : User := { baseUser with referred_by := some "9" }

/-- State with two payments of user 7 and a pool holding two credentials. -/
def c6State : SysState :=
  ⟨[("p1", basePayment), ("p2", basePayment)],
   [("30_days", [⟨"u1", "s1"⟩, ⟨"u2", "s2"⟩])],
   [("7", c6User), ("9", baseUser)]⟩

def c6After1 : SysState := (ps_assign_login_to_user "7" "30_days" "p1" 100 3 c6State).2

def c6After2 : SysState :=
  (ps_assign_login_to_user "7" "30_days" "p2" 200 3 c6After1).2

/-- C6 counterexample: two consecutive successful fulfillments for the same
referred customer each bump the referrer counter: after the second
fulfillment, which is not the first one, the counter stands at two instead
of staying at one. -/
theorem c6_referral_counterexample :
    (ps_assign_login_to_user "7" "30_days" "p1" 100 3 c6State).1.1 = true ∧
    (ps_assign_login_to_user "7" "30_days" "p2" 200 3 c6After1).1.1 = true ∧
    (alookup c6After1.users "9").map User.successful_referrals = some 1 ∧
    (alookup c6After2.users "9").map User.successful_referrals = some 2 := by
  decide

/-- C6 amended: the referrer counter is incremented on every successful
fulfillment of a referred customer, not only the first: whenever the pool
is non-empty and the customer exists and carries referred_by naming an
existing other customer, assign_login_to_user succeeds and the referrer
counter afterwards is its previous value plus one, with no check anywhere
of whether an earlier fulfillment already credited this referral. -/
theorem c6_referral_amended (user_id plan_type payment_id : String)
    (now n : Nat) (st : SysState) (login : Login) (user referrer : User)
    (r : String)
    (hl : get_available_login plan_type st.logins = some login)
    (hu : alookup st.users user_id = some user)
    (hr : user.referred_by = some r)
    (hne : r.isEmpty = false)
    (hru : r ≠ user_id)
    (href : alookup st.users r = some referrer) :
    (ps_assign_login_to_user user_id plan_type payment_id now n st).1.1 = true ∧
    alookup (ps_assign_login_to_user user_id plan_type payment_id now n st).2.users
        r =
      some { referrer with
        successful_referrals := referrer.successful_referrals + 1 } := by
  have h1 : ∀ u' : User, alookup (aset st.users user_id u') r = some referrer := by
    intro u'
    rw [alookup_aset_ne _ _ _ _ hru]; exact href
  refine ⟨?_, ?_⟩ <;>
    simp [ps_assign_login_to_user, hl, hu, hr, hne, process_successful_referral,
      h1, alookup_aset_self]

theorem c6_referral_witness :
    (ps_assign_login_to_user "7" "30_days" "p1" 100 3 c6State).1.1 = true ∧
    alookup (ps_assign_login_to_user "7" "30_days" "p1" 100 3 c6State).2.users
        "9" =
      some { baseUser with successful_referrals := 1 } :=
  c6_referral_amended "7" "30_days" "p1" 100 3 c6State ⟨"u1", "s1"⟩ c6User
    baseUser "9" (by decide) (by decide) (by decide) (by decide) (by decide)
    (by decide)

/-- Two simultaneously active discounts applicable to every plan, the
smaller one first in store order. -/
def c5Discounts : Discounts :=
  [("d1", ⟨10, 100, []⟩), ("d2", ⟨50, 100, []⟩)]

/-- A returning customer, not on a first purchase. -/
def c5Users : Users := [("7", { baseUser with is_first_buy := false })]

/-- C5 counterexample: with a 10 percent discount stored before a 50
percent one, both active and applicable, the source prices the 30-day plan
at 18 (applying the first discount found) while the claimed formula with
the largest discount yields 10. -/
theorem c5_price_counterexample :
    utils_calculate_plan_price "7" "30_days" 0 c5Users c5Discounts = some 18 ∧
    claim_calculate_plan_price "7" "30_days" 0 c5Users c5Discounts = some 10 ∧
    (18 : ℚ) ≠ 10 := by
  refine ⟨?_, ?_, by norm_num⟩
  · norm_num [utils_calculate_plan_price, c5Users, c5Discounts, alookup, PLANS,
      get_seasonal_discount_info, get_active_seasonal_discounts, findApplicable,
      discountApplies, baseUser]
  · norm_num [claim_calculate_plan_price, claim_base_price,
      largestApplicablePercent, c5Users, c5Discounts, alookup, PLANS,
      get_active_seasonal_discounts, discountApplies, baseUser, max_def]

/-- C5 amended: the price equals the claimed base (first-buy price when the
flag is set and the tier allows it, else the regular price) multiplied by
one minus d over one hundred, where d is the FIRST active discount
applicable to the tier in store order (zero when none is active), not the
largest one. -/
theorem c5_price_amended (user_id plan_type : String) (now : Nat)
    (users : Users) (ds : Discounts) (plan : Plan)
    (hp : alookup PLANS plan_type = some plan) :
    utils_calculate_plan_price user_id plan_type now users ds =
      some (claim_base_price user_id plan users *
        (1 - firstApplicablePercent plan_type now ds / 100)) := by
  unfold utils_calculate_plan_price claim_base_price firstApplicablePercent
    get_seasonal_discount_info
  rw [hp]
  cases h : findApplicable plan_type (get_active_seasonal_discounts now ds) with
  | none => simp [h]
  | some x => simp [h]

theorem c5_price_witness :
    utils_calculate_plan_price "7" "30_days" 0 c5Users c5Discounts =
      some (claim_base_price "7" ⟨"Plano 30 Dias", 30, 9, 20, true⟩ c5Users *
        (1 - firstApplicablePercent "30_days" 0 c5Discounts / 100)) :=
  c5_price_amended "7" "30_days" 0 c5Users c5Discounts
    ⟨"Plano 30 Dias", 30, 9, 20, true⟩ (by decide)

/-- A fixed coupon whose value equals the purchase amount used below. -/
def c8Coupon : CSCoupon :=
  { discount_type := "fixed", discount_value := 30, expires_at := none,
    max_uses := 10, uses := 0, min_purchase := 0, applicable_plans := [] }

/-- C8 counterexample: the coupon_service validator accepts a fixed coupon
worth the whole amount and returns a final amount of exactly zero, which
is not strictly positive. -/
theorem c8_coupon_counterexample :
    cs_validate_coupon "FIX30" "30_days" 30 0 [("FIX30", c8Coupon)] =
      some (30, 0) := by
  have hs : ("fixed" : String) ≠ "percent" := by decide
  norm_num [cs_validate_coupon, alookup, c8Coupon, cs_coupon_expired,
    cs_plan_blocked, cs_discount_amount, cs_discount, min_def, hs]

/-- C8 amended: the utils validator caps the discount at amount minus one
cent, so every success there has a strictly positive final amount; the
coupon_service validator only caps FIXED discounts, at the full amount, so
a success with a non-percent coupon guarantees merely a nonnegative final
amount, and zero is reachable. -/
theorem c8_coupon_amended :
    (∀ code user_id plan_type amount now coupons users d f,
        utils_validate_coupon code user_id plan_type amount now coupons users =
          some (d, f) → 0 < f) ∧
    (∀ code plan_type amount now coupons d f,
        (∀ c : CSCoupon, alookup coupons code = some c →
          c.discount_type ≠ "percent") →
        cs_validate_coupon code plan_type amount now coupons = some (d, f) →
        0 ≤ f) := by
  have key1 : ∀ (c : Coupon) (a : ℚ), 0 < (coupon_discount_amount c a).2 := by
    intro c a
    unfold coupon_discount_amount coupon_discount
    by_cases h : a - coupon_discount0 c a ≤ 0
    · simp only [h, if_true]
      norm_num
    · simp only [h, if_false]
      linarith
  have key2 : ∀ (c : CSCoupon) (a : ℚ), c.discount_type ≠ "percent" →
      0 ≤ (cs_discount_amount c a).2 := by
    intro c a hft
    unfold cs_discount_amount cs_discount
    simp only [hft, if_false]
    have : min c.discount_value a ≤ a := min_le_right _ _
    linarith
  constructor
  · intro code user_id plan_type amount now coupons users d f h
    unfold utils_validate_coupon at h
    split at h
    · exact Option.noConfusion h
    · split at h
      · exact Option.noConfusion h
      · rename_i coupon heq
        repeat' split at h
        all_goals first
          | exact Option.noConfusion h
          | (have hf : f = (coupon_discount_amount coupon amount).2 :=
               congrArg Prod.snd (Option.some.inj h).symm
             rw [hf]
             exact key1 coupon amount)
  · intro code plan_type amount now coupons d f hft h
    unfold cs_validate_coupon at h
    split at h
    · exact Option.noConfusion h
    · rename_i coupon heq
      repeat' split at h
      all_goals first
        | exact Option.noConfusion h
        | (have hf : f = (cs_discount_amount coupon amount).2 :=
             congrArg Prod.snd (Option.some.inj h).symm
           rw [hf]
           exact key2 coupon amount (hft coupon heq))

/-- A percentage coupon accepted by the utils validator. -/
def c8UCoupon : Coupon :=
  { discount_type := "percentage", discount_value := 10,
    expiration_date := none, max_uses := -1, uses := 0,
    max_uses_per_user := -1, min_purchase := none,
    applicable_plans := ["all"], usage_history := some [], users := [] }

theorem c8_coupon_witness : (0 : ℚ) < 18 ∧ (0 : ℚ) ≤ 0 :=
  ⟨c8_coupon_amended.1 "CUT10" "7" "30_days" 20 0 [("CUT10", c8UCoupon)]
      c5Users 2 18
      (by
        have hu : upperString "CUT10" = "CUT10" := by decide
        have he : "CUT10".isEmpty = false := by decide
        norm_num [utils_validate_coupon, hu, he, alookup, c8UCoupon,
          c5Users, baseUser, coupon_expired, coupon_uses_exhausted,
          coupon_user_blocked, coupon_below_min, coupon_plan_blocked,
          first_buy_blocked, coupon_discount_amount, coupon_discount,
          coupon_discount0]),
   c8_coupon_amended.2 "FIX30" "30_days" 30 0 [("FIX30", c8Coupon)] 30 0
      (by
        intro c hc
        have : c = c8Coupon := by
          have := Option.some.inj (by simpa [alookup] using hc.symm)
          simp [this]
        rw [this]
        decide)
      (by
        have hs : ("fixed" : String) ≠ "percent" := by decide
        norm_num [cs_validate_coupon, alookup, c8Coupon, cs_coupon_expired,
          cs_plan_blocked, cs_discount_amount, cs_discount, min_def, hs])⟩

/-- The terminal statuses named by the specification. -/
def terminalStatuses : List String :=
  ["completed", "cancelled", "rejected", "expired"]

/-- Ledger holding one payment of user 7 awaiting manual approval. -/
def c3Store : Payments :=
  [("p0", { basePayment with status := "pending_approval" })]

/-- C3 counterexample: creating a payment for a customer who still has a
pending_approval payment leaves that payment untouched, so immediately
after create the customer holds two non-terminal payments, not one. -/
theorem c3_create_counterexample :
    alookup (utils_create_payment "7" "30_days" 20 none "p1" 100 c3Store).2.1
        "p0" = some { basePayment with status := "pending_approval" } ∧
    (alookup (utils_create_payment "7" "30_days" 20 none "p1" 100 c3Store).2.1
        "p1").map Payment.status = some "pending" ∧
    (utils_create_payment "7" "30_days" 20 none "p1" 100 c3Store).2.1.countP
        (fun e => decide (e.2.user_id = "7" ∧ e.2.status ∉ terminalStatuses)) =
      2 := by
  decide

/-- C3 amended: create_payment cancels only the existing payments of the
customer whose status is exactly pending, attempting a gateway cancel for
each such payment carrying an mp_payment_id, and stores the new record
with status pending under the fresh id; afterwards the customer holds
exactly one PENDING payment, while payments of the customer in any other
status, including the non-terminal pending_approval and approved awaiting
delivery, survive unchanged. -/
theorem c3_create_amended (payments : Payments) (user_id plan_type : String)
    (amount : ℚ) (coupon_code : Option String) (payment_id : String)
    (now : Nat) (res : String × Payments × List Effect)
    (hres : utils_create_payment user_id plan_type amount coupon_code
      payment_id now payments = res)
    (hfresh : alookup payments payment_id = none) :
    (alookup res.2.1 payment_id =
      some (newPaymentData user_id plan_type amount coupon_code now)) ∧
    pendingCount user_id res.2.1 = 1 ∧
    (∀ pid p, alookup payments pid = some p → p.user_id = user_id →
      p.status = "pending" →
      alookup res.2.1 pid = some (cancelledStamp p now)) ∧
    (∀ pid p, alookup payments pid = some p →
      ¬(p.user_id = user_id ∧ p.status = "pending") →
      alookup res.2.1 pid = some p) ∧
    (∀ pid p mp, alookup payments pid = some p → p.user_id = user_id →
      p.status = "pending" → p.mp_payment_id = some mp →
      mp.isEmpty = false → Effect.gatewayCancel mp ∈ res.2.2) := by
  cases hres
  unfold utils_create_payment
  dsimp only
  have hfresh1 : alookup (cancelPendingOf user_id now payments).1 payment_id =
      none := by
    rw [alookup_cancelPendingOf, hfresh]; rfl
  refine ⟨?_, ?_, ?_, ?_, ?_⟩
  · exact alookup_aset_self _ _ _
  · rw [aset_fresh_append _ _ _ hfresh1]
    have h0 := pendingCount_cancelPendingOf user_id now payments
    simp [pendingCount, List.countP_append, newPaymentData] at h0 ⊢
    simpa [pendingCount] using h0
  · intro pid p hlk hu hs
    have hne : pid ≠ payment_id := by
      rintro rfl
      rw [hfresh] at hlk
      exact Option.noConfusion hlk
    rw [alookup_aset_ne _ _ _ _ hne, alookup_cancelPendingOf, hlk]
    simp [hu, hs]
  · intro pid p hlk hcond
    have hne : pid ≠ payment_id := by
      rintro rfl
      rw [hfresh] at hlk
      exact Option.noConfusion hlk
    rw [alookup_aset_ne _ _ _ _ hne, alookup_cancelPendingOf, hlk]
    simp [hcond]
  · intro pid p mp hlk hu hs hmp hne
    exact effect_mem_cancelPendingOf user_id now payments pid p mp hlk hu hs
      hmp hne

/-- Ledger with one pending Mercado Pago payment of user 7. -/
def c3WStore : Payments :=
  [("p0", { basePayment with mp_payment_id := some "mp0" })]

theorem c3_create_witness :
    (alookup (utils_create_payment "7" "30_days" 20 none "p1" 100
        c3WStore).2.1 "p1" =
      some (newPaymentData "7" "30_days" 20 none 100)) ∧
    pendingCount "7"
        (utils_create_payment "7" "30_days" 20 none "p1" 100 c3WStore).2.1 =
      1 ∧
    alookup (utils_create_payment "7" "30_days" 20 none "p1" 100
        c3WStore).2.1 "p0" =
      some (cancelledStamp { basePayment with mp_payment_id := some "mp0" }
        100) ∧
    Effect.gatewayCancel "mp0" ∈
      (utils_create_payment "7" "30_days" 20 none "p1" 100 c3WStore).2.2 := by
  have H := c3_create_amended c3WStore "7" "30_days" 20 none "p1" 100 _ rfl
    (by decide)
  refine ⟨H.1, H.2.1, ?_, ?_⟩
  · exact H.2.2.1 "p0" { basePayment with mp_payment_id := some "mp0" }
      (by decide) rfl rfl
  · exact H.2.2.2.2 "p0" { basePayment with mp_payment_id := some "mp0" }
      "mp0" (by decide) rfl rfl rfl (by decide)

/-! ### Lemmas about the pending-payment scan -/

theorem firstPending_mem (uid : String) (ps : Payments) (pid : String)
    (p : Payment) (h : firstPending uid ps = some (pid, p)) : (pid, p) ∈ ps := by
  induction ps with
  | nil => simp [firstPending] at h
  | cons hd tl ih =>
      obtain ⟨k0, q⟩ := hd
      by_cases hp : q.user_id = uid ∧ q.status = "pending"
      · simp [firstPending, hp] at h
        obtain ⟨h1, h2⟩ := h
        subst h1; subst h2
        exact List.mem_cons_self _ _
      · simp [firstPending, hp] at h
        exact List.mem_cons_of_mem _ (ih h)

theorem gupp_none (uid : String) (now : Nat) (ps : Payments)
    (h : firstPending uid ps = none) :
    utils_get_user_pending_payment uid now ps = (none, ps, []) := by
  induction ps with
  | nil => rfl
  | cons hd tl ih =>
      obtain ⟨pid, p⟩ := hd
      by_cases hp : p.user_id = uid ∧ p.status = "pending"
      · simp [firstPending, hp] at h
      · simp [firstPending, hp] at h
        simp [utils_get_user_pending_payment, hp, ih h]

theorem gupp_fresh (uid : String) (now : Nat) (ps : Payments) (pid : String)
    (p : Payment) (c : Nat) (hF : firstPending uid ps = some (pid, p))
    (hc : p.created_at = some c) (ht : ¬ now > c + 600) :
    utils_get_user_pending_payment uid now ps = (some p, ps, []) := by
  induction ps with
  | nil => simp [firstPending] at hF
  | cons hd tl ih =>
      obtain ⟨k0, q⟩ := hd
      by_cases hp : q.user_id = uid ∧ q.status = "pending"
      · simp [firstPending, hp] at hF
        obtain ⟨h1, h2⟩ := hF
        subst h1; subst h2
        simp [utils_get_user_pending_payment, hp, hc, ht]
      · simp [firstPending, hp] at hF
        simp [utils_get_user_pending_payment, hp, ih hF]

theorem gupp_nodate (uid : String) (now : Nat) (ps : Payments) (pid : String)
    (p : Payment) (hF : firstPending uid ps = some (pid, p))
    (hc : p.created_at = none) :
    utils_get_user_pending_payment uid now ps = (some p, ps, []) := by
  induction ps with
  | nil => simp [firstPending] at hF
  | cons hd tl ih =>
      obtain ⟨k0, q⟩ := hd
      by_cases hp : q.user_id = uid ∧ q.status = "pending"
      · simp [firstPending, hp] at hF
        obtain ⟨h1, h2⟩ := hF
        subst h1; subst h2
        simp [utils_get_user_pending_payment, hp, hc]
      · simp [firstPending, hp] at hF
        simp [utils_get_user_pending_payment, hp, ih hF]

theorem gupp_stale (uid : String) (now : Nat) (ps : Payments) (pid : String)
    (p : Payment) (c : Nat) (hN : (ps.map Prod.fst).Nodup)
    (hF : firstPending uid ps = some (pid, p))
    (hc : p.created_at = some c) (ht : now > c + 600) :
    (utils_get_user_pending_payment uid now ps).1 = none ∧
    (utils_get_user_pending_payment uid now ps).2.2 = mpCancelEffects p ∧
    alookup (utils_get_user_pending_payment uid now ps).2.1 pid =
      some { p with status := "expired" } ∧
    (∀ k, k ≠ pid →
      alookup (utils_get_user_pending_payment uid now ps).2.1 k =
        alookup ps k) := by
  induction ps with
  | nil => simp [firstPending] at hF
  | cons hd tl ih =>
      obtain ⟨k0, q⟩ := hd
      rw [List.map_cons, List.nodup_cons] at hN
      by_cases hp : q.user_id = uid ∧ q.status = "pending"
      · simp [firstPending, hp] at hF
        obtain ⟨h1, h2⟩ := hF
        subst h1; subst h2
        refine ⟨?_, ?_, ?_, ?_⟩
        · simp [utils_get_user_pending_payment, hp, hc, ht]
        · simp [utils_get_user_pending_payment, hp, hc, ht]
        · simp [utils_get_user_pending_payment, hp, hc, ht, alookup]
        · intro k hk
          simp [utils_get_user_pending_payment, hp, hc, ht, alookup,
            Ne.symm hk]
      · simp [firstPending, hp] at hF
        have hk0 : k0 ≠ pid := by
          intro hcontra
          apply hN.1
          rw [hcontra]
          exact List.mem_map.mpr ⟨(pid, p), firstPending_mem uid tl pid p hF, rfl⟩
        obtain ⟨ih1, ih2, ih3, ih4⟩ := ih hN.2 hF
        refine ⟨?_, ?_, ?_, ?_⟩
        · simp [utils_get_user_pending_payment, hp, ih1]
        · simp [utils_get_user_pending_payment, hp, ih2]
        · simp [utils_get_user_pending_payment, hp, alookup, hk0, ih3]
        · intro k hk
          by_cases hkk : k0 = k
          · subst hkk
            simp [utils_get_user_pending_payment, hp, alookup]
          · simp [utils_get_user_pending_payment, hp, alookup, hkk, ih4 k hk]

/-- C7 amended: the query scans the ledger in order and acts on the FIRST
pending payment of the customer alone: when that payment is older than the
600-second window it is marked expired in place (a gateway cancel being
attempted exactly when it carries a truthy mp_payment_id), every other
entry is untouched and none is returned; when it is within the window, or
has no created_at, it is returned with the ledger unchanged; a stale
pending payment stored behind a fresh one is never examined. -/
theorem c7_pending_amended (uid : String) (now : Nat) (ps : Payments)
    (hN : (ps.map Prod.fst).Nodup) :
    (firstPending uid ps = none →
      utils_get_user_pending_payment uid now ps = (none, ps, [])) ∧
    (∀ pid p c, firstPending uid ps = some (pid, p) →
      p.created_at = some c → ¬ now > c + 600 →
      utils_get_user_pending_payment uid now ps = (some p, ps, [])) ∧
    (∀ pid p, firstPending uid ps = some (pid, p) → p.created_at = none →
      utils_get_user_pending_payment uid now ps = (some p, ps, [])) ∧
    (∀ pid p c, firstPending uid ps = some (pid, p) →
      p.created_at = some c → now > c + 600 →
      (utils_get_user_pending_payment uid now ps).1 = none ∧
      (utils_get_user_pending_payment uid now ps).2.2 = mpCancelEffects p ∧
      alookup (utils_get_user_pending_payment uid now ps).2.1 pid =
        some { p with status := "expired" } ∧
      (∀ k, k ≠ pid →
        alookup (utils_get_user_pending_payment uid now ps).2.1 k =
          alookup ps k)) :=
  ⟨fun h => gupp_none uid now ps h,
   fun pid p c hF hc ht => gupp_fresh uid now ps pid p c hF hc ht,
   fun pid p hF hc => gupp_nodate uid now ps pid p hF hc,
   fun pid p c hF hc ht => gupp_stale uid now ps pid p c hN hF hc ht⟩

/-- A pending payment of user 7 created at second 1000. -/
def c7FreshP : Payment := { basePayment with created_at := some 1000 }

/-- A pending Mercado Pago payment of user 7 created at second 0. -/
def c7StaleP : Payment :=
  { basePayment with created_at := some 0, mp_payment_id := some "mpb" }

/-- Ledger holding the fresh payment ahead of the stale one. -/
def c7Store : Payments := [("a", c7FreshP), ("b", c7StaleP)]

/-- C7 counterexample: at second 1500 the payment under key b is pending
and more than 600 seconds old, yet the query returns the fresh payment
stored ahead of it, leaves the stale payment pending, writes nothing and
attempts no gateway cancel, instead of expiring it and returning none. -/
theorem c7_pending_counterexample :
    1500 > 0 + 600 ∧
    (alookup c7Store "b").map Payment.status = some "pending" ∧
    (alookup c7Store "b").map Payment.created_at = some (some 0) ∧
    utils_get_user_pending_payment "7" 1500 c7Store =
      (some c7FreshP, c7Store, []) := by
  decide

/-- Ledger holding only the stale payment. -/
def c7WStore : Payments := [("b", c7StaleP)]

theorem c7_pending_witness :
    (utils_get_user_pending_payment "7" 1500 c7WStore).1 = none ∧
    (utils_get_user_pending_payment "7" 1500 c7WStore).2.2 =
      mpCancelEffects c7StaleP ∧
    alookup (utils_get_user_pending_payment "7" 1500 c7WStore).2.1 "b" =
      some { c7StaleP with status := "expired" } := by
  have H := (c7_pending_amended "7" 1500 c7WStore (by decide)).2.2.2 "b"
    c7StaleP 0 (by decide) rfl (by decide)
  exact ⟨H.1, H.2.1, H.2.2.1⟩

end UnitV
